import Mathlib

/-!
Shallow embedding of the AI-chat browser extension:
the persisted settings store (`packages/storage/lib/impl/ai-settings-storage.ts`)
and the sidebar chat logic (`pages/options/src/Options.tsx`).
-/

namespace AiChat

/-! ## String helpers (JavaScript semantics) -/

/-- JavaScript `String.prototype.trim`, modelled on the character list:
drop whitespace at the front, then at the back. -/
def jsTrimList (l : List Char) : List Char :=
  ((l.dropWhile Char.isWhitespace).reverse.dropWhile Char.isWhitespace).reverse

/-- JavaScript `s.trim()` on Lean strings. -/
def jsTrim (s : String) : String :=
  String.mk (jsTrimList s.data)

/-- JavaScript `a || b` on strings: the empty string is falsy. -/
def jsOr (a b : String) : String :=
  if a = "" then b else a

/-- JavaScript `a || b` where `a` is an optional string (absent is falsy,
the empty string is falsy). -/
def jsOrOpt (a : Option String) (b : String) : String :=
  match a with
  | some s => if s = "" then b else s
  | none => b

/-! ## Settings store (`ai-settings-storage.ts`) -/

/-- The `AiSettings` record type. -/
structure AiSettings where
  apiKey : String
  baseUrl : String
  includeContextByDefault : Bool
deriving DecidableEq, Repr

/-- The `defaultSettings` constant. -/
def defaultSettings : AiSettings :=
  { apiKey := "", baseUrl := "", includeContextByDefault := true }

/-- TypeScript `Partial AiSettings`: each field optionally present. -/
structure PartialAiSettings where
  apiKey : Option String
  baseUrl : Option String
  includeContextByDefault : Option Bool
deriving DecidableEq, Repr

/-- The spread merge `{ ...current, ...updates }` used in `update`:
a field present in `updates` overwrites, an absent field keeps `current`. -/
def mergeSettings (current : AiSettings) (updates : PartialAiSettings) : AiSettings :=
  { apiKey := updates.apiKey.getD current.apiKey,
    baseUrl := updates.baseUrl.getD current.baseUrl,
    includeContextByDefault :=
      updates.includeContextByDefault.getD current.includeContextByDefault }

/-- Modelled from the spec: the state of the base `createStorage` cell
(`packages/storage/lib/base`, not present under src/): one persisted record
at a fixed key, possibly not yet materialized. -/
structure StorageState where
  stored : Option AiSettings
deriving DecidableEq, Repr

/-- Modelled from the spec: `get()` returns the current settings,
materializing the defaults on first access (spec section 4.1). -/
def storageGet (s : StorageState) : AiSettings :=
  s.stored.getD defaultSettings

/-- Modelled from the spec: `set(value)` stores the given record
(spec sections 4.1 and 6). -/
def storageSetValue (_s : StorageState) (v : AiSettings) : StorageState :=
  ⟨some v⟩

/-- Modelled from the spec: `set(updater)` stores the updater applied to the
current record (spec section 4.1). -/
def storageSetUpdater (s : StorageState) (f : AiSettings → AiSettings) : StorageState :=
  ⟨some (f (storageGet s))⟩

/-- `aiSettingsStorage.reset`: `storage.set(defaultSettings)`. -/
def aiSettingsReset (s : StorageState) : StorageState :=
  storageSetValue s defaultSettings

/-- `aiSettingsStorage.update`: `storage.set(current => ({...current, ...updates}))`. -/
def aiSettingsUpdate (s : StorageState) (updates : PartialAiSettings) : StorageState :=
  storageSetUpdater s (fun current => mergeSettings current updates)

/-! ## Sidebar data model (`Options.tsx`) -/

/-- The `PageContext` record. -/
structure PageContext where
  title : String
  url : String
  text : String
  preview : String
deriving DecidableEq, Repr

/-- The message role, `user` or `assistant`. -/
inductive Role where
  | user
  | assistant
deriving DecidableEq, Repr

/-- The `ChatMessage` record. `id` holds the generated UUID and `createdAt`
the `Date.now()` timestamp; both are inputs to the embedded handlers. -/
structure ChatMessage where
  id : String
  role : Role
  content : String
  createdAt : Nat
  usingContext : Bool
deriving DecidableEq, Repr

/-- The non-null part of `TooltipState`. -/
structure TooltipData where
  text : String
  x : Int
  y : Int
deriving DecidableEq, Repr

/-- The `Attachment` record. -/
structure Attachment where
  id : String
  name : String
  dataUrl : String
deriving DecidableEq, Repr

/-- The component state of the sidebar `App`. `settings` is the persisted
record seen through `useStorage(aiSettingsStorage)`. -/
structure SidebarState where
  settings : AiSettings
  sidebarOpen : Bool
  pageContext : Option PageContext
  includeContext : Bool
  messages : List ChatMessage
  input : String
  isSending : Bool
  tooltip : Option TooltipData
  attachments : List Attachment
  inlineApiKey : String
  inlineBaseUrl : String
deriving DecidableEq, Repr

/-- One `role`/`content` entry of the request `history`. -/
structure HistoryEntry where
  role : Role
  content : String
deriving DecidableEq, Repr

/-- One `name`/`dataUrl` entry of `context.attachments`. -/
structure ContextAttachment where
  name : String
  dataUrl : String
deriving DecidableEq, Repr

/-- The `context` object of the request payload. -/
structure ContextPayload where
  title : String
  url : String
  text : String
  preview : String
  attachments : List ContextAttachment
deriving DecidableEq, Repr

/-- The JSON body of the `POST` to the chat endpoint. -/
structure ChatPayload where
  message : String
  history : List HistoryEntry
  context : Option ContextPayload
deriving DecidableEq, Repr

/-- The outgoing network request: URL, bearer token and JSON body. -/
structure ChatRequest where
  url : String
  apiKey : String
  payload : ChatPayload
deriving DecidableEq, Repr

/-- The JSON body of a successful response: optional `reply` and `message`
string fields. -/
structure ChatResponse where
  reply : Option String
  message : Option String
deriving DecidableEq, Repr

/-- Outcome of the `fetch` call, an input to the embedded handler:
a successful response with JSON body, a non-ok HTTP status, or a
transport error carrying the thrown error message. -/
inductive FetchOutcome where
  | success (body : ChatResponse)
  | httpError (status : Nat)
  | transportError (msg : String)
deriving DecidableEq, Repr

/-! ## `handleSend` (`Options.tsx` lines 285-359) -/

/-- The trimmed prompt: `(rawText ?? input).trim()`. -/
def promptOf (st : SidebarState) (rawText : Option String) : String :=
  jsTrim (rawText.getD st.input)

/-- `usingContext = includeContext && !!pageContext`. -/
def usingCtx (st : SidebarState) : Bool :=
  st.includeContext && st.pageContext.isSome

/-- The effective api key: `(inlineApiKey || settings.apiKey).trim()`. -/
def effApiKey (st : SidebarState) : String :=
  jsTrim (jsOr st.inlineApiKey st.settings.apiKey)

/-- The effective base url: `(inlineBaseUrl || settings.baseUrl).trim()`. -/
def effBaseUrl (st : SidebarState) : String :=
  jsTrim (jsOr st.inlineBaseUrl st.settings.baseUrl)

/-- The guard `apiKey && baseUrl` deciding whether a fetch is issued. -/
def isConfigured (st : SidebarState) : Bool :=
  effApiKey st ≠ "" && effBaseUrl st ≠ ""

/-- `baseUrl.replace(/\/$/, "")`: remove one trailing slash if present. -/
def stripTrailingSlash (s : String) : String :=
  if s.data.getLast? = some '/' then String.mk s.data.dropLast else s

/-- The `userMessage` record built from the prompt. -/
def userMsgOf (st : SidebarState) (rawText : Option String) (uid1 : String)
    (t1 : Nat) : ChatMessage :=
  ⟨uid1, Role.user, promptOf st rawText, t1, usingCtx st⟩

/-- `contextPayload`: the page context plus attachment metadata when context
is in use, otherwise `null`. -/
def buildContextPayload (st : SidebarState) : Option ContextPayload :=
  if usingCtx st then
    match st.pageContext with
    | some pc =>
      some ⟨pc.title, pc.url, pc.text, pc.preview,
        st.attachments.map (fun file => ⟨file.name, file.dataUrl⟩)⟩
    | none => none
  else none

/-- JavaScript `array.slice(-6)`: the last six elements (the whole array when
it is shorter). -/
def sliceLastSix (l : List α) : List α :=
  l.drop (l.length - 6)

/-- The request `payload`: the prompt, the last six of prior messages plus the
new user message projected to role/content, and the context. -/
def payloadOf (st : SidebarState) (rawText : Option String) (uid1 : String)
    (t1 : Nat) : ChatPayload :=
  ⟨promptOf st rawText,
    (sliceLastSix (st.messages ++ [userMsgOf st rawText uid1 t1])).map
      (fun m => ⟨m.role, m.content⟩),
    buildContextPayload st⟩

/-- The fetch issued by `handleSend`: `POST {stripped baseUrl}/chat` with the
bearer api key, only when both credentials are non-empty. -/
def requestOf (st : SidebarState) (rawText : Option String) (uid1 : String)
    (t1 : Nat) : Option ChatRequest :=
  if isConfigured st then
    some ⟨stripTrailingSlash (effBaseUrl st) ++ "/chat", effApiKey st,
      payloadOf st rawText uid1 t1⟩
  else none

/-- The fixed fallback reply used when api key or base url is unset. -/
def notConfiguredReply : String :=
  "已记录你的问题，但还没有配置 API Key 与 Base URL。请先在侧边栏或 Options 页面填入后再试一次。"

/-- The generic placeholder used when the response JSON has neither a usable
`reply` nor a usable `message` field. -/
def genericReply : String :=
  "对话已发送到你的模型，请根据后端返回结构调整取值字段。"

/-- `data?.reply || data?.message || genericReply`. -/
def responseContent (d : ChatResponse) : String :=
  jsOrOpt d.reply (jsOrOpt d.message genericReply)

/-- The `assistantContent` finally shown: fallback when not configured,
otherwise from the fetch outcome (`HTTP {status}` errors and transport errors
are surfaced as `请求失败: ...`). -/
def assistantContentOf (st : SidebarState) (net : FetchOutcome) : String :=
  if isConfigured st then
    match net with
    | FetchOutcome.success d => responseContent d
    | FetchOutcome.httpError status => "请求失败: HTTP " ++ toString status
    | FetchOutcome.transportError msg => "请求失败: " ++ msg
  else notConfiguredReply

/-- The `assistantMessage` record; `usingContext` is `!!contextPayload`. -/
def assistantMsgOf (st : SidebarState) (net : FetchOutcome) (uid2 : String)
    (t2 : Nat) : ChatMessage :=
  ⟨uid2, Role.assistant, assistantContentOf st net, t2,
    (buildContextPayload st).isSome⟩

/-- `handleSend(rawText)`: returns the component state after the invocation
completes together with the fetch it issued, if any. An empty trimmed prompt
returns early; otherwise the user message is appended, the input cleared, the
sidebar opened, and exactly one assistant message is appended before
`isSending` is reset. -/
def handleSend (st : SidebarState) (rawText : Option String)
    (uid1 uid2 : String) (t1 t2 : Nat) (net : FetchOutcome) :
    SidebarState × Option ChatRequest :=
  if promptOf st rawText = "" then (st, none)
  else
    ({ st with
        messages := st.messages ++
          [userMsgOf st rawText uid1 t1, assistantMsgOf st net uid2 t2],
        input := "",
        isSending := false,
        sidebarOpen := true },
      requestOf st rawText uid1 t1)

/-! ## `onTooltipAction` and `removeAttachment` (`Options.tsx` lines 361-398) -/

/-- The three tooltip intents. -/
inductive TooltipIntent where
  | chat
  | translate
  | like
deriving DecidableEq, Repr

/-- The translation template head prepended before the selected text. -/
def translateTemplateHead : String :=
  "请把下面的文字翻译成中文并保留关键信息：\n"

/-- The encouragement template head prepended before the selected text. -/
def likeTemplateHead : String :=
  "针对这段话给出一句鼓励或点赞：\n"

/-- The prompt built by `onTooltipAction` from the trimmed selection `base`. -/
def tooltipPrompt (intent : TooltipIntent) (base : String) : String :=
  match intent with
  | TooltipIntent.translate => translateTemplateHead ++ base
  | TooltipIntent.like => likeTemplateHead ++ base
  | TooltipIntent.chat => base

/-- `onTooltipAction(intent)`: no-op unless a tooltip with non-empty text is
visible; otherwise opens the sidebar, hides the tooltip and sends the built
prompt through `handleSend`. -/
def onTooltipAction (st : SidebarState) (intent : TooltipIntent)
    (uid1 uid2 : String) (t1 t2 : Nat) (net : FetchOutcome) :
    SidebarState × Option ChatRequest :=
  match st.tooltip with
  | none => (st, none)
  | some tip =>
    if tip.text = "" then (st, none)
    else
      handleSend { st with sidebarOpen := true, tooltip := none }
        (some (tooltipPrompt intent (jsTrim tip.text))) uid1 uid2 t1 t2 net

/-- `removeAttachment(id)`: filter the attachment list by `item.id !== id`. -/
def removeAttachment (st : SidebarState) (id : String) : SidebarState :=
  { st with attachments := st.attachments.filter (fun item => item.id ≠ id) }

/-! ## Sample states used to instantiate the theorems -/

/-- A fresh sidebar over default (unconfigured) settings. -/
def sampleState : SidebarState :=
  { settings := defaultSettings, sidebarOpen := false, pageContext := none,
    includeContext := true, messages := [], input := "", isSending := false,
    tooltip := none, attachments := [], inlineApiKey := "", inlineBaseUrl := "" }

/-- A sidebar whose persisted settings carry credentials. -/
def sampleConfigured : SidebarState :=
  { sampleState with settings := ⟨"k", "https://x", true⟩ }

/-- A sidebar whose inline credentials carry a base url with a trailing
slash. -/
def sampleSlash : SidebarState :=
  { sampleState with inlineApiKey := "k", inlineBaseUrl := "https://x/" }

/-! ## Helper lemmas -/

/-- A non-matching element survives `dropWhile`. -/
theorem mem_dropWhile_of_not (p : Char → Bool) (c : Char) (hw : p c = false) :
    ∀ l : List Char, c ∈ l → c ∈ l.dropWhile p := by
  intro l
  induction l with
  | nil => intro h; exact absurd h (List.not_mem_nil c)
  | cons a tl ih =>
    intro hmem
    by_cases ha : p a
    · rcases List.mem_cons.mp hmem with hca | h
      · subst hca; rw [hw] at ha; cases ha
      · rw [List.dropWhile_cons, if_pos ha]; exact ih h
    · rw [List.dropWhile_cons, if_neg ha]; exact hmem

/-- Trimming keeps at least one character when the list holds a
non-whitespace character. -/
theorem jsTrimList_ne_nil (l : List Char) (c : Char) (hc : c ∈ l)
    (hw : c.isWhitespace = false) : jsTrimList l ≠ [] := by
  intro hnil
  unfold jsTrimList at hnil
  rw [List.reverse_eq_nil_iff] at hnil
  have h2 : c ∈ (l.dropWhile Char.isWhitespace).reverse :=
    List.mem_reverse.mpr (mem_dropWhile_of_not _ c hw l hc)
  have := List.dropWhile_eq_nil_iff.mp hnil c h2
  rw [hw] at this
  cases this

/-- A string holding a non-whitespace character trims to a non-empty
string. -/
theorem jsTrim_ne_empty (s : String) (c : Char) (hc : c ∈ s.data)
    (hw : c.isWhitespace = false) : jsTrim s ≠ "" := by
  intro h
  exact jsTrimList_ne_nil s.data c hc hw (congrArg String.data h)

/-- A tooltip prompt built from the translation template trims to a
non-empty string, whatever the selection was. -/
theorem translate_prompt_trim_ne (base : String) :
    jsTrim (translateTemplateHead ++ base) ≠ "" := by
  apply jsTrim_ne_empty _ '请'
  · rw [String.data_append]
    exact List.mem_append_left _ (by decide)
  · decide

/-- Unfolding of `handleSend` on a prompt that trims non-empty. -/
theorem handleSend_run (st : SidebarState) (rawText : Option String)
    (uid1 uid2 : String) (t1 t2 : Nat) (net : FetchOutcome)
    (hp : promptOf st rawText ≠ "") :
    handleSend st rawText uid1 uid2 t1 t2 net =
      ({ st with
          messages := st.messages ++
            [userMsgOf st rawText uid1 t1, assistantMsgOf st net uid2 t2],
          input := "",
          isSending := false,
          sidebarOpen := true },
        requestOf st rawText uid1 t1) := by
  rw [handleSend, if_neg hp]

/-- `slice(-6)` returns at most six elements. -/
theorem sliceLastSix_length_le (l : List α) : (sliceLastSix l).length ≤ 6 := by
  rw [sliceLastSix, List.length_drop]
  omega

/-- `slice(-6)` of a list ending in `x` still ends in `x`. -/
theorem sliceLastSix_concat (l : List α) (x : α) :
    sliceLastSix (l ++ [x]) = l.drop ((l ++ [x]).length - 6) ++ [x] := by
  rw [sliceLastSix]
  apply List.drop_append_of_le_length
  simp only [List.length_append, List.length_cons, List.length_nil]
  omega

/-! ## Claims -/

/-- C1: for every prior settings record S and every partial update U,
`update(U)` followed by `get()` returns S with exactly the keys present in U
overwritten by U's values and every other field of S unchanged. -/
theorem update_then_get_merges (s : StorageState) (S : AiSettings)
    (U : PartialAiSettings) (h : storageGet s = S) :
    (∀ v, U.apiKey = some v → (storageGet (aiSettingsUpdate s U)).apiKey = v) ∧
    (U.apiKey = none → (storageGet (aiSettingsUpdate s U)).apiKey = S.apiKey) ∧
    (∀ v, U.baseUrl = some v → (storageGet (aiSettingsUpdate s U)).baseUrl = v) ∧
    (U.baseUrl = none → (storageGet (aiSettingsUpdate s U)).baseUrl = S.baseUrl) ∧
    (∀ v, U.includeContextByDefault = some v →
      (storageGet (aiSettingsUpdate s U)).includeContextByDefault = v) ∧
    (U.includeContextByDefault = none →
      (storageGet (aiSettingsUpdate s U)).includeContextByDefault =
        S.includeContextByDefault) := by
  subst h
  refine ⟨fun v hv => ?_, fun hv => ?_, fun v hv => ?_, fun hv => ?_,
    fun v hv => ?_, fun hv => ?_⟩ <;>
    simp [aiSettingsUpdate, storageSetUpdater, storageGet, mergeSettings, hv]

/-- Witness for C1 at a concrete store and update: overwriting only the api key
keeps the base url and the context flag. -/
theorem update_then_get_merges_witness :
    (storageGet (aiSettingsUpdate ⟨some ⟨"old", "https://b", false⟩⟩
      ⟨some "new", none, none⟩)).apiKey = "new" ∧
    (storageGet (aiSettingsUpdate ⟨some ⟨"old", "https://b", false⟩⟩
      ⟨some "new", none, none⟩)).baseUrl = "https://b" ∧
    (storageGet (aiSettingsUpdate ⟨some ⟨"old", "https://b", false⟩⟩
      ⟨some "new", none, none⟩)).includeContextByDefault = false := by
  have h := update_then_get_merges ⟨some ⟨"old", "https://b", false⟩⟩
    ⟨"old", "https://b", false⟩ ⟨some "new", none, none⟩ rfl
  exact ⟨h.1 "new" rfl, h.2.2.2.1 rfl, h.2.2.2.2.2 rfl⟩

/-- C4: `reset()` followed by `get()` returns exactly the default record
regardless of the state before the reset. -/
theorem reset_then_get_default (s : StorageState) :
    storageGet (aiSettingsReset s) =
      { apiKey := "", baseUrl := "", includeContextByDefault := true } := rfl

/-- Witness for C4 at a concrete non-default store. -/
theorem reset_then_get_default_witness :
    storageGet (aiSettingsReset ⟨some ⟨"k", "https://x", false⟩⟩) =
      { apiKey := "", baseUrl := "", includeContextByDefault := true } :=
  reset_then_get_default ⟨some ⟨"k", "https://x", false⟩⟩

/-- C9: when the prompt (the explicit `rawText` argument, or otherwise the
input box content) trims to the empty string, `handleSend` is a no-op: the
whole component state is unchanged and no fetch is performed. -/
theorem handleSend_empty_prompt_noop (st : SidebarState) (rawText : Option String)
    (uid1 uid2 : String) (t1 t2 : Nat) (net : FetchOutcome)
    (hp : promptOf st rawText = "") :
    handleSend st rawText uid1 uid2 t1 t2 net = (st, none) := by
  rw [handleSend, if_pos hp]

/-- Witness for C9: a whitespace-only explicit prompt leaves the fresh state
untouched. -/
theorem handleSend_empty_prompt_noop_witness :
    handleSend sampleState (some "   ") "u1" "u2" 3 4
      (FetchOutcome.transportError "boom") = (sampleState, none) :=
  handleSend_empty_prompt_noop sampleState (some "   ") "u1" "u2" 3 4
    (FetchOutcome.transportError "boom") (by decide)

/-- C2: when the effective api key or the effective base url is empty and the
prompt trims non-empty, `handleSend` performs no fetch and appends exactly the
fixed not-configured assistant message right after the user message. -/
theorem handleSend_not_configured (st : SidebarState) (rawText : Option String)
    (uid1 uid2 : String) (t1 t2 : Nat) (net : FetchOutcome)
    (hcfg : effApiKey st = "" ∨ effBaseUrl st = "")
    (hp : promptOf st rawText ≠ "") :
    handleSend st rawText uid1 uid2 t1 t2 net =
      ({ st with
          messages := st.messages ++
            [userMsgOf st rawText uid1 t1,
              ⟨uid2, Role.assistant, notConfiguredReply, t2,
                (buildContextPayload st).isSome⟩],
          input := "",
          isSending := false,
          sidebarOpen := true },
        none) := by
  have hc : isConfigured st = false := by
    rcases hcfg with h | h <;> simp [isConfigured, h]
  rw [handleSend_run st rawText uid1 uid2 t1 t2 net hp]
  simp [requestOf, assistantMsgOf, assistantContentOf, hc]

/-- Witness for C2: the spec scenario with empty settings and prompt
`hello`. -/
theorem handleSend_not_configured_witness :
    (handleSend sampleState (some "hello") "u1" "u2" 3 4
      (FetchOutcome.transportError "boom")).2 = none ∧
    (handleSend sampleState (some "hello") "u1" "u2" 3 4
      (FetchOutcome.transportError "boom")).1.messages =
      [⟨"u1", Role.user, "hello", 3, false⟩,
       ⟨"u2", Role.assistant, notConfiguredReply, 4, false⟩] := by
  rw [handleSend_not_configured sampleState (some "hello") "u1" "u2" 3 4
    (FetchOutcome.transportError "boom") (Or.inl rfl) (by decide)]
  exact ⟨rfl, rfl⟩

/-- C6: on a prompt that trims non-empty, `handleSend` appends exactly one
user message followed by exactly one assistant message, keeping every prior
message in place and in order, so the list grows by exactly two entries. -/
theorem handleSend_appends_two (st : SidebarState) (rawText : Option String)
    (uid1 uid2 : String) (t1 t2 : Nat) (net : FetchOutcome)
    (hp : promptOf st rawText ≠ "") :
    (handleSend st rawText uid1 uid2 t1 t2 net).1.messages =
      st.messages ++
        [userMsgOf st rawText uid1 t1, assistantMsgOf st net uid2 t2] ∧
    (userMsgOf st rawText uid1 t1).role = Role.user ∧
    (assistantMsgOf st net uid2 t2).role = Role.assistant ∧
    (handleSend st rawText uid1 uid2 t1 t2 net).1.messages.length =
      st.messages.length + 2 := by
  rw [handleSend_run st rawText uid1 uid2 t1 t2 net hp]
  refine ⟨rfl, rfl, rfl, ?_⟩
  simp

/-- Witness for C6: a configured fresh sidebar sending `hi` ends with a
two-entry message list. -/
theorem handleSend_appends_two_witness :
    (handleSend sampleConfigured (some "hi") "u1" "u2" 3 4
      (FetchOutcome.success ⟨some "ok", none⟩)).1.messages =
      sampleConfigured.messages ++
        [userMsgOf sampleConfigured (some "hi") "u1" 3,
          assistantMsgOf sampleConfigured (FetchOutcome.success ⟨some "ok", none⟩)
            "u2" 4] ∧
    (userMsgOf sampleConfigured (some "hi") "u1" 3).role = Role.user ∧
    (assistantMsgOf sampleConfigured (FetchOutcome.success ⟨some "ok", none⟩)
      "u2" 4).role = Role.assistant ∧
    (handleSend sampleConfigured (some "hi") "u1" "u2" 3 4
      (FetchOutcome.success ⟨some "ok", none⟩)).1.messages.length =
      sampleConfigured.messages.length + 2 :=
  handleSend_appends_two sampleConfigured (some "hi") "u1" "u2" 3 4
    (FetchOutcome.success ⟨some "ok", none⟩) (by decide)

/-- C3: whenever `handleSend` issues a request, the `history` array of its
body has length at most 6 and its last entry is the role/content projection of
the user message for the prompt just sent. -/
theorem request_history_bounded (st : SidebarState) (rawText : Option String)
    (uid1 uid2 : String) (t1 t2 : Nat) (net : FetchOutcome) (req : ChatRequest)
    (h : (handleSend st rawText uid1 uid2 t1 t2 net).2 = some req) :
    req.payload.history.length ≤ 6 ∧
    req.payload.history.getLast? =
      some ⟨Role.user, promptOf st rawText⟩ := by
  by_cases hp : promptOf st rawText = ""
  · rw [handleSend, if_pos hp] at h
    cases h
  · rw [handleSend_run st rawText uid1 uid2 t1 t2 net hp] at h
    rw [requestOf] at h
    by_cases hc : isConfigured st = true
    · rw [if_pos hc] at h
      cases h
      constructor
      · calc (payloadOf st rawText uid1 t1).history.length
            = (sliceLastSix (st.messages ++ [userMsgOf st rawText uid1 t1])).length := by
              rw [payloadOf]; exact List.length_map _ _
          _ ≤ 6 := sliceLastSix_length_le _
      · rw [payloadOf, sliceLastSix_concat, List.map_append]
        exact List.getLast?_concat _
    · rw [if_neg hc] at h
      cases h

/-- Witness for C3: a configured send of `hello` from an empty history yields
a one-entry history ending in the user entry. -/
theorem request_history_bounded_witness :
    (ChatRequest.payload ⟨"https://x/chat", "k",
      ⟨"hello", [⟨Role.user, "hello"⟩], none⟩⟩).history.length ≤ 6 ∧
    (ChatRequest.payload ⟨"https://x/chat", "k",
      ⟨"hello", [⟨Role.user, "hello"⟩], none⟩⟩).history.getLast? =
      some ⟨Role.user, promptOf sampleConfigured (some "hello")⟩ :=
  request_history_bounded sampleConfigured (some "hello") "u1" "u2" 3 4
    (FetchOutcome.success ⟨some "hi", none⟩)
    ⟨"https://x/chat", "k", ⟨"hello", [⟨Role.user, "hello"⟩], none⟩⟩ rfl

/-- C10: whenever `handleSend` issues a request, its URL is the effective base
url with at most one trailing slash removed, followed by `/chat`; in
particular a base url ending in a slash never doubles the slash before
`chat`. -/
theorem request_url_shape (st : SidebarState) (rawText : Option String)
    (uid1 uid2 : String) (t1 t2 : Nat) (net : FetchOutcome) (req : ChatRequest)
    (h : (handleSend st rawText uid1 uid2 t1 t2 net).2 = some req) :
    req.url = stripTrailingSlash (effBaseUrl st) ++ "/chat" ∧
    ((effBaseUrl st).data.getLast? ≠ some '/' →
      req.url = effBaseUrl st ++ "/chat") ∧
    (∀ b, effBaseUrl st = b ++ "/" → req.url = b ++ "/chat") := by
  have hurl : req.url = stripTrailingSlash (effBaseUrl st) ++ "/chat" := by
    by_cases hp : promptOf st rawText = ""
    · rw [handleSend, if_pos hp] at h
      cases h
    · rw [handleSend_run st rawText uid1 uid2 t1 t2 net hp] at h
      rw [requestOf] at h
      by_cases hc : isConfigured st = true
      · rw [if_pos hc] at h
        cases h
        rfl
      · rw [if_neg hc] at h
        cases h
  refine ⟨hurl, fun hns => ?_, fun b hb => ?_⟩
  · rw [hurl, stripTrailingSlash, if_neg hns]
  · rw [hurl, hb, stripTrailingSlash]
    rw [String.data_append]
    rw [if_pos (List.getLast?_concat _)]
    rw [List.dropLast_concat]

/-- Witness for C10: an inline base url `https://x/` with its trailing slash
produces the request URL `https://x` ++ `/chat`. -/
theorem request_url_shape_witness :
    (ChatRequest.url ⟨"https://x/chat", "k",
      ⟨"hello", [⟨Role.user, "hello"⟩], none⟩⟩) = "https://x" ++ "/chat" :=
  (request_url_shape sampleSlash (some "hello") "u1" "u2" 3 4
    (FetchOutcome.success ⟨some "hi", none⟩)
    ⟨"https://x/chat", "k", ⟨"hello", [⟨Role.user, "hello"⟩], none⟩⟩
    rfl).2.2 "https://x" (by decide)

/-- C5 counterexample: a response whose `reply` field is present but holds the
empty string does not become the assistant content; the JavaScript `||` falls
through to `message`, so the appended assistant message carries `hi`, not the
present `reply` value. -/
theorem reply_present_empty_counterexample :
    (ChatResponse.mk (some "") (some "hi")).reply = some "" ∧
    (handleSend sampleConfigured (some "hello") "u1" "u2" 3 4
      (FetchOutcome.success ⟨some "", some "hi"⟩)).1.messages.getLast? =
      some ⟨"u2", Role.assistant, "hi", 4, false⟩ ∧
    ("hi" : String) ≠ "" := by
  refine ⟨rfl, ?_, by decide⟩
  decide

/-- C5 (amended): on a successful response the appended assistant content is
`reply` when present and non-empty, otherwise `message` when present and
non-empty, otherwise the generic placeholder (the JavaScript `||` treats an
empty string the same as an absent field). -/
theorem success_assistant_content (st : SidebarState) (rawText : Option String)
    (uid1 uid2 : String) (t1 t2 : Nat) (d : ChatResponse)
    (hp : promptOf st rawText ≠ "") (hc : isConfigured st = true) :
    (handleSend st rawText uid1 uid2 t1 t2 (FetchOutcome.success d)).1.messages =
      st.messages ++
        [userMsgOf st rawText uid1 t1,
          ⟨uid2, Role.assistant, responseContent d, t2,
            (buildContextPayload st).isSome⟩] ∧
    (∀ s, d.reply = some s → s ≠ "" → responseContent d = s) ∧
    ((d.reply = none ∨ d.reply = some "") →
      ∀ s, d.message = some s → s ≠ "" → responseContent d = s) ∧
    ((d.reply = none ∨ d.reply = some "") →
      (d.message = none ∨ d.message = some "") →
      responseContent d = genericReply) := by
  refine ⟨?_, fun s hs hne => ?_, fun hr s hs hne => ?_, fun hr hm => ?_⟩
  · rw [handleSend_run st rawText uid1 uid2 t1 t2 (FetchOutcome.success d) hp]
    simp [assistantMsgOf, assistantContentOf, hc]
  · simp [responseContent, jsOrOpt, hs, hne]
  · rcases hr with hr | hr <;>
      simp [responseContent, jsOrOpt, hr, hs, hne]
  · rcases hr with hr | hr <;> rcases hm with hm | hm <;>
      simp [responseContent, jsOrOpt, hr, hm]

/-- Witness for C5 (amended): a configured send with response `reply := ok`
appends an assistant message carrying `ok`. -/
theorem success_assistant_content_witness :
    (handleSend sampleConfigured (some "hello") "u1" "u2" 3 4
      (FetchOutcome.success ⟨some "ok", none⟩)).1.messages =
      sampleConfigured.messages ++
        [userMsgOf sampleConfigured (some "hello") "u1" 3,
          ⟨"u2", Role.assistant, responseContent ⟨some "ok", none⟩, 4,
            (buildContextPayload sampleConfigured).isSome⟩] ∧
    responseContent ⟨some "ok", none⟩ = "ok" := by
  have h := success_assistant_content sampleConfigured (some "hello") "u1" "u2"
    3 4 ⟨some "ok", none⟩ (by decide) (by decide)
  exact ⟨h.1, h.2.1 "ok" rfl (by decide)⟩

/-- C7: with a visible tooltip holding non-empty selected text, the translate
action sends through `handleSend` exactly the translation template wrapping
the trimmed selection, hides the tooltip, opens the sidebar, and the send
appends its two messages. -/
theorem tooltip_translate_sends (st : SidebarState) (tip : TooltipData)
    (uid1 uid2 : String) (t1 t2 : Nat) (net : FetchOutcome)
    (h : st.tooltip = some tip) (ht : tip.text ≠ "") :
    onTooltipAction st TooltipIntent.translate uid1 uid2 t1 t2 net =
      handleSend { st with sidebarOpen := true, tooltip := none }
        (some (translateTemplateHead ++ jsTrim tip.text)) uid1 uid2 t1 t2 net ∧
    (onTooltipAction st TooltipIntent.translate uid1 uid2 t1 t2 net).1.tooltip =
      none ∧
    (onTooltipAction st TooltipIntent.translate uid1 uid2 t1 t2 net).1.sidebarOpen =
      true ∧
    (onTooltipAction st TooltipIntent.translate uid1 uid2 t1 t2 net).1.messages.length =
      st.messages.length + 2 := by
  have hcall : onTooltipAction st TooltipIntent.translate uid1 uid2 t1 t2 net =
      handleSend { st with sidebarOpen := true, tooltip := none }
        (some (translateTemplateHead ++ jsTrim tip.text)) uid1 uid2 t1 t2 net := by
    rw [onTooltipAction, h]
    simp only [ht, if_false, if_neg ht]
    rfl
  have hp : promptOf { st with sidebarOpen := true, tooltip := none }
      (some (translateTemplateHead ++ jsTrim tip.text)) ≠ "" :=
    translate_prompt_trim_ne (jsTrim tip.text)
  refine ⟨hcall, ?_, ?_, ?_⟩ <;>
    simp [hcall, handleSend_run _ _ _ _ _ _ _ hp]

/-- Witness for C7: selecting ` bonjour ` and hitting translate builds the
wrapped prompt and grows the message list by two. -/
theorem tooltip_translate_sends_witness :
    onTooltipAction { sampleState with tooltip := some ⟨" bonjour ", 0, 0⟩ }
        TooltipIntent.translate "u1" "u2" 3 4 (FetchOutcome.transportError "boom") =
      handleSend
        { { sampleState with tooltip := some ⟨" bonjour ", 0, 0⟩ } with
            sidebarOpen := true, tooltip := none }
        (some (translateTemplateHead ++ jsTrim " bonjour ")) "u1" "u2" 3 4
        (FetchOutcome.transportError "boom") ∧
    (onTooltipAction { sampleState with tooltip := some ⟨" bonjour ", 0, 0⟩ }
        TooltipIntent.translate "u1" "u2" 3 4
        (FetchOutcome.transportError "boom")).1.tooltip = none ∧
    (onTooltipAction { sampleState with tooltip := some ⟨" bonjour ", 0, 0⟩ }
        TooltipIntent.translate "u1" "u2" 3 4
        (FetchOutcome.transportError "boom")).1.sidebarOpen = true ∧
    (onTooltipAction { sampleState with tooltip := some ⟨" bonjour ", 0, 0⟩ }
        TooltipIntent.translate "u1" "u2" 3 4
        (FetchOutcome.transportError "boom")).1.messages.length =
      ({ sampleState with tooltip := some ⟨" bonjour ", 0, 0⟩ } :
        SidebarState).messages.length + 2 :=
  tooltip_translate_sends { sampleState with tooltip := some ⟨" bonjour ", 0, 0⟩ }
    ⟨" bonjour ", 0, 0⟩ "u1" "u2" 3 4 (FetchOutcome.transportError "boom")
    rfl (by decide)

/-- C8: `removeAttachment(id)` keeps the attachment list a sublist of the
original (so order is preserved), every surviving entry has a different id,
every entry with a different id survives, and the result is exactly the
filter of the original list. -/
theorem removeAttachment_removes_id (st : SidebarState) (i : String) :
    (removeAttachment st i).attachments.Sublist st.attachments ∧
    (∀ a ∈ (removeAttachment st i).attachments, a.id ≠ i) ∧
    (∀ a ∈ st.attachments, a.id ≠ i → a ∈ (removeAttachment st i).attachments) ∧
    (removeAttachment st i).attachments =
      st.attachments.filter (fun item => item.id ≠ i) := by
  refine ⟨List.filter_sublist _, fun a ha => ?_, fun a ha hne => ?_, rfl⟩
  · have := (List.mem_filter.mp ha).2
    simpa using this
  · exact List.mem_filter.mpr ⟨ha, by simpa using hne⟩

/-- Witness for C8: removing id `b` from a three-entry list drops exactly the
middle entry. -/
theorem removeAttachment_removes_id_witness :
    (removeAttachment { sampleState with attachments :=
      [⟨"a", "1.png", "d1"⟩, ⟨"b", "2.png", "d2"⟩, ⟨"c", "3.png", "d3"⟩] }
      "b").attachments =
      [⟨"a", "1.png", "d1"⟩, ⟨"c", "3.png", "d3"⟩] := by
  rw [(removeAttachment_removes_id { sampleState with attachments :=
    [⟨"a", "1.png", "d1"⟩, ⟨"b", "2.png", "d2"⟩, ⟨"c", "3.png", "d3"⟩] }
    "b").2.2.2]
  decide

end AiChat
